import Mathlib

/-!
Verification development for the small-go project scaffolder.

The Go sources are shallowly embedded: every template content generator
(`templates/generators.go` and the generators in `create_project.go`) is
translated to a pure Lean function on strings, the template registry
(`templates/template.go`, `templates/hexagonal.go`, `templates/clean.go`)
to a list of `Template` records, and the effectful scaffolding pipeline
(`createProject`, `generateCoreFiles`, `writeFile` in `create_project.go`)
to a trace-producing function parameterised by an operating-system
environment `OSEnv` that decides which primitive calls succeed.  Go maps
returned by `GenerateFiles` are represented as association lists in source
order; the iteration order of a Go map is unspecified, so properties about
the order in which `generateCoreFiles` processes entries quantify over
permutations of the association list.
-/
namespace templates

def generateMainGo (projectName : String) : String :=
  "package main\n\nimport (\n\t\"go.uber.org/fx\"\n\t\"go.uber.org/fx/fxevent\"\n\t\"go.uber.org/zap\"\n\n\t\"" ++ projectName ++ "/initiators\"\n)\n\nfunc main() \x7b\n\tapp := fx.New(\n\t\tfx.Provide(\n\t\t\tinitiators.NewLogger,\n\t\t\tinitiators.NewUserRepository,\n\t\t\tinitiators.NewUserService,\n\t\t\tinitiators.NewHTTPHandler,\n\t\t),\n\t\tfx.Invoke(initiators.StartServer),\n\t\tfx.WithLogger(func(log *zap.Logger) fxevent.Logger \x7b\n\t\t\treturn fxevent.NopLogger\n\t\t\x7d),\n\t)\n\n\tapp.Run()\n\x7d\n"

def generateDomainUser : String :=
  "package domain\n\nimport (\n\t\"time\"\n)\n\n// User represents a user entity in the domain\ntype User struct \x7b\n\tID        string    `json:\"id\"`\n\tEmail     string    `json:\"email\"`\n\tName      string    `json:\"name\"`\n\tCreatedAt time.Time `json:\"created_at\"`\n\tUpdatedAt time.Time `json:\"updated_at\"`\n\x7d\n\n// NewUser creates a new user instance\nfunc NewUser(email, name string) *User \x7b\n\tnow := time.Now()\n\treturn &User\x7b\n\t\tEmail:     email,\n\t\tName:      name,\n\t\tCreatedAt: now,\n\t\tUpdatedAt: now,\n\t\x7d\n\x7d\n\n// UpdateName updates the user's name\nfunc (u *User) UpdateName(name string) \x7b\n\tu.Name = name\n\tu.UpdatedAt = time.Now()\n\x7d\n"

def generateApplicationUserService (projectName : String) : String :=
  "package application\n\nimport (\n\t\"context\"\n\t\"fmt\"\n\n\t\"" ++ projectName ++ "/internal/domain\"\n\t\"" ++ projectName ++ "/internal/ports/inbound\"\n\t\"" ++ projectName ++ "/internal/ports/outbound\"\n)\n\n// UserService implements the user application service\ntype UserService struct \x7b\n\tuserRepo outbound.UserRepository\n\x7d\n\n// NewUserService creates a new user service instance\nfunc NewUserService(userRepo outbound.UserRepository) inbound.UserService \x7b\n\treturn &UserService\x7b\n\t\tuserRepo: userRepo,\n\t\x7d\n\x7d\n\n// CreateUser creates a new user\nfunc (s *UserService) CreateUser(ctx context.Context, email, name string) (*domain.User, error) \x7b\n\tuser := domain.NewUser(email, name)\n\t\n\t// Save to repository\n\tif err := s.userRepo.Save(ctx, user); err != nil \x7b\n\t\treturn nil, fmt.Errorf(\"failed to save user: %w\", err)\n\t\x7d\n\n\treturn user, nil\n\x7d\n\n// GetUser retrieves a user by ID\nfunc (s *UserService) GetUser(ctx context.Context, id string) (*domain.User, error) \x7b\n\tuser, err := s.userRepo.FindByID(ctx, id)\n\tif err != nil \x7b\n\t\treturn nil, fmt.Errorf(\"failed to get user: %w\", err)\n\t\x7d\n\n\treturn user, nil\n\x7d\n"

def generateInboundUserService (projectName : String) : String :=
  "package inbound\n\nimport (\n\t\"context\"\n\n\t\"" ++ projectName ++ "/internal/domain\"\n)\n\n// UserService defines the inbound port for user operations\ntype UserService interface \x7b\n\tCreateUser(ctx context.Context, email, name string) (*domain.User, error)\n\tGetUser(ctx context.Context, id string) (*domain.User, error)\n\x7d\n"

def generateOutboundUserRepository (projectName : String) : String :=
  "package outbound\n\nimport (\n\t\"context\"\n\n\t\"" ++ projectName ++ "/internal/domain\"\n)\n\n// UserRepository defines the outbound port for user persistence\ntype UserRepository interface \x7b\n\tSave(ctx context.Context, user *domain.User) error\n\tFindByID(ctx context.Context, id string) (*domain.User, error)\n\tFindByEmail(ctx context.Context, email string) (*domain.User, error)\n\tUpdate(ctx context.Context, user *domain.User) error\n\tDelete(ctx context.Context, id string) error\n\x7d\n"

def generateHTTPUserHandler (projectName : String) : String :=
  "package http\n\nimport (\n\t\"encoding/json\"\n\t\"net/http\"\n\n\t\"github.com/go-chi/chi/v5\"\n\n\t\"" ++ projectName ++ "/internal/ports/inbound\"\n)\n\n// UserHandler handles HTTP requests for user operations\ntype UserHandler struct \x7b\n\tuserService inbound.UserService\n\x7d\n\n// NewUserHandler creates a new user handler\nfunc NewUserHandler(userService inbound.UserService) *UserHandler \x7b\n\treturn &UserHandler\x7b\n\t\tuserService: userService,\n\t\x7d\n\x7d\n\n// CreateUserRequest represents the request body for creating a user\ntype CreateUserRequest struct \x7b\n\tEmail string `json:\"email\"`\n\tName  string `json:\"name\"`\n\x7d\n\n// CreateUser handles POST /users\nfunc (h *UserHandler) CreateUser(w http.ResponseWriter, r *http.Request) \x7b\n\tvar req CreateUserRequest\n\tif err := json.NewDecoder(r.Body).Decode(&req); err != nil \x7b\n\t\thttp.Error(w, \"Invalid request body\", http.StatusBadRequest)\n\t\treturn\n\t\x7d\n\n\tuser, err := h.userService.CreateUser(r.Context(), req.Email, req.Name)\n\tif err != nil \x7b\n\t\thttp.Error(w, err.Error(), http.StatusInternalServerError)\n\t\treturn\n\t\x7d\n\n\tw.Header().Set(\"Content-Type\", \"application/json\")\n\tw.WriteHeader(http.StatusCreated)\n\tjson.NewEncoder(w).Encode(user)\n\x7d\n\n// GetUser handles GET /users/\x7bid\x7d\nfunc (h *UserHandler) GetUser(w http.ResponseWriter, r *http.Request) \x7b\n\tuserID := chi.URLParam(r, \"id\")\n\tif userID == \"\" \x7b\n\t\thttp.Error(w, \"User ID is required\", http.StatusBadRequest)\n\t\treturn\n\t\x7d\n\n\tuser, err := h.userService.GetUser(r.Context(), userID)\n\tif err != nil \x7b\n\t\thttp.Error(w, err.Error(), http.StatusNotFound)\n\t\treturn\n\t\x7d\n\n\tw.Header().Set(\"Content-Type\", \"application/json\")\n\tjson.NewEncoder(w).Encode(user)\n\x7d\n"

def generateHTTPRouter (projectName : String) : String :=
  "package http\n\nimport (\n\t\"net/http\"\n\n\t\"github.com/go-chi/chi/v5\"\n\t\"github.com/go-chi/chi/v5/middleware\"\n\n\t\"" ++ projectName ++ "/internal/ports/inbound\"\n)\n\n// Router sets up HTTP routes using Chi\nfunc NewRouter(userService inbound.UserService) http.Handler \x7b\n\tr := chi.NewRouter()\n\t\n\t// Middleware\n\tr.Use(middleware.Logger)\n\tr.Use(middleware.Recoverer)\n\tr.Use(middleware.RequestID)\n\n\t// Initialize handlers\n\tuserHandler := NewUserHandler(userService)\n\n\t// Health check\n\tr.Get(\"/health\", func(w http.ResponseWriter, r *http.Request) \x7b\n\t\tw.Header().Set(\"Content-Type\", \"application/json\")\n\t\tw.Write([]byte(`\x7b\"status\":\"ok\"\x7d`))\n\t\x7d)\n\n\t// User routes\n\tr.Route(\"/users\", func(r chi.Router) \x7b\n\t\tr.Post(\"/\", userHandler.CreateUser)\n\t\tr.Get(\"/\x7bid\x7d\", userHandler.GetUser)\n\t\x7d)\n\n\treturn r\n\x7d\n"

def generateUserRepository (projectName : String) : String :=
  "package persistence\n\nimport (\n\t\"context\"\n\t\"fmt\"\n\n\t\"" ++ projectName ++ "/internal/domain\"\n\t\"" ++ projectName ++ "/internal/ports/outbound\"\n)\n\n// UserRepository implements UserRepository using in-memory storage\ntype UserRepository struct \x7b\n\tusers map[string]*domain.User\n\x7d\n\n// NewUserRepository creates a new user repository\nfunc NewUserRepository() outbound.UserRepository \x7b\n\treturn &UserRepository\x7b\n\t\tusers: make(map[string]*domain.User),\n\t\x7d\n\x7d\n\n// Save saves a user to storage\nfunc (r *UserRepository) Save(ctx context.Context, user *domain.User) error \x7b\n\t// Simple ID generation (in a real app, use UUID)\n\tif user.ID == \"\" \x7b\n\t\tuser.ID = fmt.Sprintf(\"user_%d\", len(r.users)+1)\n\t\x7d\n\t\n\tr.users[user.ID] = user\n\tfmt.Printf(\"Saved user: %s\\n\", user.Email)\n\treturn nil\n\x7d\n\n// FindByID finds a user by ID\nfunc (r *UserRepository) FindByID(ctx context.Context, id string) (*domain.User, error) \x7b\n\tuser, exists := r.users[id]\n\tif !exists \x7b\n\t\treturn nil, fmt.Errorf(\"user not found\")\n\t\x7d\n\treturn user, nil\n\x7d\n\n// FindByEmail finds a user by email\nfunc (r *UserRepository) FindByEmail(ctx context.Context, email string) (*domain.User, error) \x7b\n\tfor _, user := range r.users \x7b\n\t\tif user.Email == email \x7b\n\t\t\treturn user, nil\n\t\t\x7d\n\t\x7d\n\treturn nil, fmt.Errorf(\"user not found\")\n\x7d\n\n// Update updates a user\nfunc (r *UserRepository) Update(ctx context.Context, user *domain.User) error \x7b\n\tif _, exists := r.users[user.ID]; !exists \x7b\n\t\treturn fmt.Errorf(\"user not found\")\n\t\x7d\n\tr.users[user.ID] = user\n\treturn nil\n\x7d\n\n// Delete deletes a user\nfunc (r *UserRepository) Delete(ctx context.Context, id string) error \x7b\n\tif _, exists := r.users[id]; !exists \x7b\n\t\treturn fmt.Errorf(\"user not found\")\n\t\x7d\n\tdelete(r.users, id)\n\treturn nil\n\x7d\n"

def generateAppInitiator : String :=
  "package initiators\n\nimport (\n\t\"context\"\n\t\"net/http\"\n\t\"os\"\n\n\t\"go.uber.org/fx\"\n\t\"go.uber.org/zap\"\n)\n\n// StartServer starts the HTTP server\nfunc StartServer(lifecycle fx.Lifecycle, logger *zap.Logger, handler http.Handler) \x7b\n\tport := os.Getenv(\"PORT\")\n\tif port == \"\" \x7b\n\t\tport = \"8080\"\n\t\x7d\n\n\tserver := &http.Server\x7b\n\t\tAddr:    \":\" + port,\n\t\tHandler: handler,\n\t\x7d\n\n\tlifecycle.Append(fx.Hook\x7b\n\t\tOnStart: func(context.Context) error \x7b\n\t\t\tlogger.Info(\"Starting HTTP server\", zap.String(\"port\", port))\n\t\t\tgo func() \x7b\n\t\t\t\tif err := server.ListenAndServe(); err != nil && err != http.ErrServerClosed \x7b\n\t\t\t\t\tlogger.Error(\"Server failed\", zap.Error(err))\n\t\t\t\t\x7d\n\t\t\t\x7d()\n\t\t\treturn nil\n\t\t\x7d,\n\t\tOnStop: func(ctx context.Context) error \x7b\n\t\t\tlogger.Info(\"Stopping HTTP server\")\n\t\t\treturn server.Shutdown(ctx)\n\t\t\x7d,\n\t\x7d)\n\x7d\n"

def generateHTTPInitiator (projectName : String) : String :=
  "package initiators\n\nimport (\n\t\"net/http\"\n\n\thttphandler \"" ++ projectName ++ "/adapters/inbound/http\"\n\t\"" ++ projectName ++ "/internal/ports/inbound\"\n)\n\n// NewHTTPHandler creates a new HTTP handler\nfunc NewHTTPHandler(userService inbound.UserService) http.Handler \x7b\n\treturn httphandler.NewRouter(userService)\n\x7d\n"

def generatePersistenceInitiator (projectName : String) : String :=
  "package initiators\n\nimport (\n\t\"go.uber.org/zap\"\n\n\t\"" ++ projectName ++ "/adapters/outbound/persistence\"\n\t\"" ++ projectName ++ "/internal/application\"\n\t\"" ++ projectName ++ "/internal/ports/inbound\"\n\t\"" ++ projectName ++ "/internal/ports/outbound\"\n)\n\n// NewUserRepository creates a new user repository\nfunc NewUserRepository() outbound.UserRepository \x7b\n\treturn persistence.NewUserRepository()\n\x7d\n\n// NewUserService creates a new user service\nfunc NewUserService(userRepo outbound.UserRepository) inbound.UserService \x7b\n\treturn application.NewUserService(userRepo)\n\x7d\n\n// NewLogger creates a new logger\nfunc NewLogger() (*zap.Logger, error) \x7b\n\treturn zap.NewProduction()\n\x7d\n"

def generateCleanMainGo (projectName : String) : String :=
  "package main\n\nimport (\n\t\"go.uber.org/fx\"\n\t\"go.uber.org/fx/fxevent\"\n\t\"go.uber.org/zap\"\n\n\t\"" ++ projectName ++ "/initiator\"\n)\n\nfunc main() \x7b\n\tapp := fx.New(\n\t\tfx.Provide(\n\t\t\tinitiator.NewLogger,\n\t\t\tinitiator.NewConfig,\n\t\t\tinitiator.NewMongoConnection,\n\t\t\tinitiator.NewUserRepository,\n\t\t\tinitiator.NewUserService,\n\t\t\tinitiator.NewUserMapper,\n\t\t\tinitiator.NewUserHandler,\n\t\t\tinitiator.NewRoutes,\n\t\t),\n\t\tfx.Invoke(initiator.StartServer),\n\t\tfx.WithLogger(func(log *zap.Logger) fxevent.Logger \x7b\n\t\t\treturn fxevent.NopLogger\n\t\t\x7d),\n\t)\n\n\tapp.Run()\n\x7d\n"

def generateCleanDomainEntity : String :=
  "package entity\n\nimport (\n\t\"time\"\n\n\t\"go.mongodb.org/mongo-driver/bson/primitive\"\n)\n\n// User represents a user entity in the domain\ntype User struct \x7b\n\tID        primitive.ObjectID `bson:\"_id,omitempty\" json:\"id\"`\n\tEmail     string             `bson:\"email\" json:\"email\"`\n\tName      string             `bson:\"name\" json:\"name\"`\n\tCreatedAt time.Time          `bson:\"created_at\" json:\"created_at\"`\n\tUpdatedAt time.Time          `bson:\"updated_at\" json:\"updated_at\"`\n\x7d\n\n// NewUser creates a new user instance\nfunc NewUser(email, name string) *User \x7b\n\tnow := time.Now()\n\treturn &User\x7b\n\t\tEmail:     email,\n\t\tName:      name,\n\t\tCreatedAt: now,\n\t\tUpdatedAt: now,\n\t\x7d\n\x7d\n\n// UpdateName updates the user's name\nfunc (u *User) UpdateName(name string) \x7b\n\tu.Name = name\n\tu.UpdatedAt = time.Now()\n\x7d\n"

def generateCleanDomainService (projectName : String) : String :=
  "package service\n\nimport (\n\t\"context\"\n\t\"fmt\"\n\n\t\"" ++ projectName ++ "/internal/domain/entity\"\n\t\"" ++ projectName ++ "/internal/storage/interfaces\"\n)\n\n// UserService implements the user domain service\ntype UserService struct \x7b\n\tuserRepo interfaces.UserRepository\n\x7d\n\n// NewUserService creates a new user service instance\nfunc NewUserService(userRepo interfaces.UserRepository) *UserService \x7b\n\treturn &UserService\x7b\n\t\tuserRepo: userRepo,\n\t\x7d\n\x7d\n\n// CreateUser creates a new user\nfunc (s *UserService) CreateUser(ctx context.Context, email, name string) (*entity.User, error) \x7b\n\tuser := entity.NewUser(email, name)\n\t\n\t// Save to repository\n\tif err := s.userRepo.Save(ctx, user); err != nil \x7b\n\t\treturn nil, fmt.Errorf(\"failed to save user: %w\", err)\n\t\x7d\n\n\treturn user, nil\n\x7d\n\n// GetUser retrieves a user by ID\nfunc (s *UserService) GetUser(ctx context.Context, id string) (*entity.User, error) \x7b\n\tuser, err := s.userRepo.FindByID(ctx, id)\n\tif err != nil \x7b\n\t\treturn nil, fmt.Errorf(\"failed to get user: %w\", err)\n\t\x7d\n\n\treturn user, nil\n\x7d\n"

def generateCleanStorageInterface (projectName : String) : String :=
  "package interfaces\n\nimport (\n\t\"context\"\n\n\t\"" ++ projectName ++ "/internal/domain/entity\"\n)\n\n// UserRepository defines the repository interface for user persistence\ntype UserRepository interface \x7b\n\tSave(ctx context.Context, user *entity.User) error\n\tFindByID(ctx context.Context, id string) (*entity.User, error)\n\tFindByEmail(ctx context.Context, email string) (*entity.User, error)\n\tUpdate(ctx context.Context, user *entity.User) error\n\tDelete(ctx context.Context, id string) error\n\x7d\n"

def generateCleanMongoRepository (projectName : String) : String :=
  "package mongo\n\nimport (\n\t\"context\"\n\t\"fmt\"\n\n\t\"go.mongodb.org/mongo-driver/bson\"\n\t\"go.mongodb.org/mongo-driver/bson/primitive\"\n\t\"go.mongodb.org/mongo-driver/mongo\"\n\n\t\"" ++ projectName ++ "/internal/domain/entity\"\n\t\"" ++ projectName ++ "/internal/storage/interfaces\"\n)\n\n// UserRepository implements UserRepository using MongoDB\ntype UserRepository struct \x7b\n\tcollection *mongo.Collection\n\x7d\n\n// NewUserRepository creates a new MongoDB user repository\nfunc NewUserRepository(collection *mongo.Collection) interfaces.UserRepository \x7b\n\treturn &UserRepository\x7b\n\t\tcollection: collection,\n\t\x7d\n\x7d\n\n// Save saves a user to MongoDB\nfunc (r *UserRepository) Save(ctx context.Context, user *entity.User) error \x7b\n\tif user.ID.IsZero() \x7b\n\t\tuser.ID = primitive.NewObjectID()\n\t\x7d\n\t\n\t_, err := r.collection.InsertOne(ctx, user)\n\treturn err\n\x7d\n\n// FindByID finds a user by ID in MongoDB\nfunc (r *UserRepository) FindByID(ctx context.Context, id string) (*entity.User, error) \x7b\n\tobjectID, err := primitive.ObjectIDFromHex(id)\n\tif err != nil \x7b\n\t\treturn nil, fmt.Errorf(\"invalid ID format\")\n\t\x7d\n\n\tvar user entity.User\n\terr = r.collection.FindOne(ctx, bson.M\x7b\"_id\": objectID\x7d).Decode(&user)\n\tif err != nil \x7b\n\t\treturn nil, fmt.Errorf(\"user not found\")\n\t\x7d\n\n\treturn &user, nil\n\x7d\n\n// FindByEmail finds a user by email in MongoDB\nfunc (r *UserRepository) FindByEmail(ctx context.Context, email string) (*entity.User, error) \x7b\n\tvar user entity.User\n\terr := r.collection.FindOne(ctx, bson.M\x7b\"email\": email\x7d).Decode(&user)\n\tif err != nil \x7b\n\t\treturn nil, fmt.Errorf(\"user not found\")\n\t\x7d\n\n\treturn &user, nil\n\x7d\n\n// Update updates a user in MongoDB\nfunc (r *UserRepository) Update(ctx context.Context, user *entity.User) error \x7b\n\t_, err := r.collection.ReplaceOne(ctx, bson.M\x7b\"_id\": user.ID\x7d, user)\n\treturn err\n\x7d\n\n// Delete deletes a user from MongoDB\nfunc (r *UserRepository) Delete(ctx context.Context, id string) error \x7b\n\tobjectID, err := primitive.ObjectIDFromHex(id)\n\tif err != nil \x7b\n\t\treturn fmt.Errorf(\"invalid ID format\")\n\t\x7d\n\n\t_, err = r.collection.DeleteOne(ctx, bson.M\x7b\"_id\": objectID\x7d)\n\treturn err\n\x7d\n"

def generateCleanUserDTO (projectName : String) : String :=
  "package dto\n\nimport (\n\t\"" ++ projectName ++ "/internal/domain/entity\"\n)\n\n// CreateUserRequest represents the request body for creating a user\ntype CreateUserRequest struct \x7b\n\tEmail string `json:\"email\" validate:\"required,email\"`\n\tName  string `json:\"name\" validate:\"required\"`\n\x7d\n\n// UserResponse represents the user response\ntype UserResponse struct \x7b\n\tID        string `json:\"id\"`\n\tEmail     string `json:\"email\"`\n\tName      string `json:\"name\"`\n\tCreatedAt string `json:\"created_at\"`\n\tUpdatedAt string `json:\"updated_at\"`\n\x7d\n\n// ToEntity converts CreateUserRequest to entity.User\nfunc (req *CreateUserRequest) ToEntity() *entity.User \x7b\n\treturn entity.NewUser(req.Email, req.Name)\n\x7d\n"

def generateCleanUserHandler (projectName : String) : String :=
  "package http\n\nimport (\n\t\"encoding/json\"\n\t\"net/http\"\n\n\t\"github.com/go-chi/chi/v5\"\n\n\t\"" ++ projectName ++ "/internal/domain/service\"\n\t\"" ++ projectName ++ "/internal/handler/rest/dto\"\n\t\"" ++ projectName ++ "/internal/handler/rest/mapper\"\n\t\"" ++ projectName ++ "/platform/utils\"\n)\n\n// UserHandler handles HTTP requests for user operations\ntype UserHandler struct \x7b\n\tuserService *service.UserService\n\tuserMapper  *mapper.UserMapper\n\x7d\n\n// NewUserHandler creates a new user handler\nfunc NewUserHandler(userService *service.UserService, userMapper *mapper.UserMapper) *UserHandler \x7b\n\treturn &UserHandler\x7b\n\t\tuserService: userService,\n\t\tuserMapper:  userMapper,\n\t\x7d\n\x7d\n\n// CreateUser handles POST /users\nfunc (h *UserHandler) CreateUser(w http.ResponseWriter, r *http.Request) \x7b\n\tvar req dto.CreateUserRequest\n\tif err := json.NewDecoder(r.Body).Decode(&req); err != nil \x7b\n\t\tutils.SendErrorResponse(w, \"Invalid request body\", http.StatusBadRequest)\n\t\treturn\n\t\x7d\n\n\tuser, err := h.userService.CreateUser(r.Context(), req.Email, req.Name)\n\tif err != nil \x7b\n\t\tutils.SendErrorResponse(w, err.Error(), http.StatusInternalServerError)\n\t\treturn\n\t\x7d\n\n\tresponse := h.userMapper.ToResponse(user)\n\tutils.SendSuccessResponse(w, response, http.StatusCreated)\n\x7d\n\n// GetUser handles GET /users/\x7bid\x7d\nfunc (h *UserHandler) GetUser(w http.ResponseWriter, r *http.Request) \x7b\n\tuserID := chi.URLParam(r, \"id\")\n\tif userID == \"\" \x7b\n\t\tutils.SendErrorResponse(w, \"User ID is required\", http.StatusBadRequest)\n\t\treturn\n\t\x7d\n\n\tuser, err := h.userService.GetUser(r.Context(), userID)\n\tif err != nil \x7b\n\t\tutils.SendErrorResponse(w, err.Error(), http.StatusNotFound)\n\t\treturn\n\t\x7d\n\n\tresponse := h.userMapper.ToResponse(user)\n\tutils.SendSuccessResponse(w, response, http.StatusOK)\n\x7d\n"

def generateCleanUserMapper (projectName : String) : String :=
  "package mapper\n\nimport (\n\t\"time\"\n\n\t\"" ++ projectName ++ "/internal/domain/entity\"\n\t\"" ++ projectName ++ "/internal/handler/rest/dto\"\n)\n\n// UserMapper handles mapping between entities and DTOs\ntype UserMapper struct\x7b\x7d\n\n// NewUserMapper creates a new user mapper\nfunc NewUserMapper() *UserMapper \x7b\n\treturn &UserMapper\x7b\x7d\n\x7d\n\n// ToResponse converts entity.User to dto.UserResponse\nfunc (m *UserMapper) ToResponse(user *entity.User) *dto.UserResponse \x7b\n\treturn &dto.UserResponse\x7b\n\t\tID:        user.ID.Hex(),\n\t\tEmail:     user.Email,\n\t\tName:      user.Name,\n\t\tCreatedAt: user.CreatedAt.Format(time.RFC3339),\n\t\tUpdatedAt: user.UpdatedAt.Format(time.RFC3339),\n\t\x7d\n\x7d\n"

def generateCleanAuthMiddleware : String :=
  "package middleware\n\nimport (\n\t\"net/http\"\n)\n\n// AuthMiddleware provides basic authentication middleware\nfunc AuthMiddleware(next http.Handler) http.Handler \x7b\n\treturn http.HandlerFunc(func(w http.ResponseWriter, r *http.Request) \x7b\n\t\t// TODO: Implement authentication logic\n\t\t// For now, just pass through\n\t\tnext.ServeHTTP(w, r)\n\t\x7d)\n\x7d\n"

def generateCleanRoutes (projectName : String) : String :=
  "package routing\n\nimport (\n\t\"net/http\"\n\n\t\"github.com/go-chi/chi/v5\"\n\tchimiddleware \"github.com/go-chi/chi/v5/middleware\"\n\n\tuserhandler \"" ++ projectName ++ "/internal/handler/rest/http\"\n\tauthmiddleware \"" ++ projectName ++ "/internal/handler/middleware\"\n)\n\n// Routes sets up all HTTP routes\nfunc Routes(userHandler *userhandler.UserHandler) http.Handler \x7b\n\tr := chi.NewRouter()\n\t\n\t// Middleware\n\tr.Use(chimiddleware.Logger)\n\tr.Use(chimiddleware.Recoverer)\n\tr.Use(chimiddleware.RequestID)\n\tr.Use(authmiddleware.AuthMiddleware)\n\n\t// Health check\n\tr.Get(\"/health\", func(w http.ResponseWriter, r *http.Request) \x7b\n\t\tw.Header().Set(\"Content-Type\", \"application/json\")\n\t\tw.Write([]byte(`\x7b\"status\":\"ok\"\x7d`))\n\t\x7d)\n\n\t// User routes\n\tr.Route(\"/users\", func(r chi.Router) \x7b\n\t\tr.Post(\"/\", userHandler.CreateUser)\n\t\tr.Get(\"/\x7bid\x7d\", userHandler.GetUser)\n\t\x7d)\n\n\treturn r\n\x7d\n"

def generateCleanInitiator (projectName : String) : String :=
  "package initiator\n\nimport (\n\t\"context\"\n\t\"net/http\"\n\t\"os\"\n\n\t\"go.uber.org/fx\"\n\t\"go.uber.org/zap\"\n)\n\n// StartServer starts the HTTP server\nfunc StartServer(lifecycle fx.Lifecycle, logger *zap.Logger, routes http.Handler) \x7b\n\tport := os.Getenv(\"PORT\")\n\tif port == \"\" \x7b\n\t\tport = \"8080\"\n\t\x7d\n\n\tserver := &http.Server\x7b\n\t\tAddr:    \":\" + port,\n\t\tHandler: routes,\n\t\x7d\n\n\tlifecycle.Append(fx.Hook\x7b\n\t\tOnStart: func(context.Context) error \x7b\n\t\t\tlogger.Info(\"Starting HTTP server\", zap.String(\"port\", port))\n\t\t\tgo func() \x7b\n\t\t\t\tif err := server.ListenAndServe(); err != nil && err != http.ErrServerClosed \x7b\n\t\t\t\t\tlogger.Error(\"Server failed\", zap.Error(err))\n\t\t\t\t\x7d\n\t\t\t\x7d()\n\t\t\treturn nil\n\t\t\x7d,\n\t\tOnStop: func(ctx context.Context) error \x7b\n\t\t\tlogger.Info(\"Stopping HTTP server\")\n\t\t\treturn server.Shutdown(ctx)\n\t\t\x7d,\n\t\x7d)\n\x7d\n"

def generateCleanServiceInitiator (projectName : String) : String :=
  "package initiator\n\nimport (\n\t\"" ++ projectName ++ "/internal/domain/service\"\n\t\"" ++ projectName ++ "/internal/storage/interfaces\"\n)\n\n// NewUserService creates a new user service\nfunc NewUserService(userRepo interfaces.UserRepository) *service.UserService \x7b\n\treturn service.NewUserService(userRepo)\n\x7d\n"

def generateCleanPersistenceInitiator (projectName : String) : String :=
  "package initiator\n\nimport (\n\t\"" ++ projectName ++ "/internal/storage/interfaces\"\n\tmongorepo \"" ++ projectName ++ "/internal/storage/mongo\"\n\tmongoplatform \"" ++ projectName ++ "/platform/mongo\"\n)\n\n// NewUserRepository creates a new user repository\nfunc NewUserRepository(connection *mongoplatform.Connection) interfaces.UserRepository \x7b\n\tcollection := connection.GetCollection(\"users\")\n\treturn mongorepo.NewUserRepository(collection)\n\x7d\n\n// NewMongoConnection creates a new MongoDB connection\nfunc NewMongoConnection(config *Config) (*mongoplatform.Connection, error) \x7b\n\treturn mongoplatform.NewConnection(config.MongoURI)\n\x7d\n"

def generateCleanHandlerInitiator (projectName : String) : String :=
  "package initiator\n\nimport (\n\t\"net/http\"\n\n\t\"" ++ projectName ++ "/internal/domain/service\"\n\tuserhandler \"" ++ projectName ++ "/internal/handler/rest/http\"\n\t\"" ++ projectName ++ "/internal/handler/rest/mapper\"\n\t\"" ++ projectName ++ "/internal/glue/routing\"\n)\n\n// NewUserHandler creates a new user handler\nfunc NewUserHandler(userService *service.UserService, userMapper *mapper.UserMapper) *userhandler.UserHandler \x7b\n\treturn userhandler.NewUserHandler(userService, userMapper)\n\x7d\n\n// NewUserMapper creates a new user mapper\nfunc NewUserMapper() *mapper.UserMapper \x7b\n\treturn mapper.NewUserMapper()\n\x7d\n\n// NewRoutes creates new routes\nfunc NewRoutes(userHandler *userhandler.UserHandler) http.Handler \x7b\n\treturn routing.Routes(userHandler)\n\x7d\n"

def generateCleanConfigInitiator : String :=
  "package initiator\n\nimport (\n\t\"os\"\n)\n\n// Config represents application configuration\ntype Config struct \x7b\n\tMongoURI string\n\tPort     string\n\x7d\n\n// NewConfig creates a new configuration\nfunc NewConfig() *Config \x7b\n\treturn &Config\x7b\n\t\tMongoURI: getEnv(\"MONGO_URI\", \"mongodb://localhost:27017\"),\n\t\tPort:     getEnv(\"PORT\", \"8080\"),\n\t\x7d\n\x7d\n\nfunc getEnv(key, defaultValue string) string \x7b\n\tif value := os.Getenv(key); value != \"\" \x7b\n\t\treturn value\n\t\x7d\n\treturn defaultValue\n\x7d\n"

def generateCleanLoggerInitiator : String :=
  "package initiator\n\nimport (\n\t\"go.uber.org/zap\"\n)\n\n// NewLogger creates a new logger\nfunc NewLogger() (*zap.Logger, error) \x7b\n\treturn zap.NewProduction()\n\x7d\n"

def generateCleanResponseUtils : String :=
  "package utils\n\nimport (\n\t\"encoding/json\"\n\t\"net/http\"\n)\n\n// Response represents a standard API response\ntype Response struct \x7b\n\tSuccess bool        `json:\"success\"`\n\tMessage string      `json:\"message,omitempty\"`\n\tData    interface\x7b\x7d `json:\"data,omitempty\"`\n\tError   string      `json:\"error,omitempty\"`\n\x7d\n\n// SendSuccessResponse sends a success response\nfunc SendSuccessResponse(w http.ResponseWriter, data interface\x7b\x7d, statusCode int) \x7b\n\tresponse := Response\x7b\n\t\tSuccess: true,\n\t\tData:    data,\n\t\x7d\n\n\tw.Header().Set(\"Content-Type\", \"application/json\")\n\tw.WriteHeader(statusCode)\n\tjson.NewEncoder(w).Encode(response)\n\x7d\n\n// SendErrorResponse sends an error response\nfunc SendErrorResponse(w http.ResponseWriter, message string, statusCode int) \x7b\n\tresponse := Response\x7b\n\t\tSuccess: false,\n\t\tError:   message,\n\t\x7d\n\n\tw.Header().Set(\"Content-Type\", \"application/json\")\n\tw.WriteHeader(statusCode)\n\tjson.NewEncoder(w).Encode(response)\n\x7d\n"

def generateCleanMongoConnection : String :=
  "package mongo\n\nimport (\n\t\"context\"\n\t\"fmt\"\n\n\t\"go.mongodb.org/mongo-driver/mongo\"\n\t\"go.mongodb.org/mongo-driver/mongo/options\"\n)\n\n// Connection represents MongoDB connection\ntype Connection struct \x7b\n\tClient *mongo.Client\n\tDB     *mongo.Database\n\x7d\n\n// NewConnection creates a new MongoDB connection\nfunc NewConnection(mongoURI string) (*Connection, error) \x7b\n\tclient, err := mongo.Connect(context.Background(), options.Client().ApplyURI(mongoURI))\n\tif err != nil \x7b\n\t\treturn nil, fmt.Errorf(\"failed to connect to MongoDB: %w\", err)\n\t\x7d\n\n\t// Ping the database\n\tif err := client.Ping(context.Background(), nil); err != nil \x7b\n\t\treturn nil, fmt.Errorf(\"failed to ping MongoDB: %w\", err)\n\t\x7d\n\n\tdb := client.Database(\"myapp\")\n\n\treturn &Connection\x7b\n\t\tClient: client,\n\t\tDB:     db,\n\t\x7d, nil\n\x7d\n\n// GetCollection returns a collection by name\nfunc (c *Connection) GetCollection(name string) *mongo.Collection \x7b\n\treturn c.DB.Collection(name)\n\x7d\n"

def generateREADME (projectName templateType : String) : String :=
  let struct := if templateType == "clean" then "\n.\n├── cmd/server/main.go                    # Application entry point\n├── internal/                             # Internal application layers\n│   ├── domain/                           # Domain layer (entities & services)\n│   │   ├── entity/                       # Domain entities\n│   │   └── service/                      # Domain services\n│   ├── storage/                          # Data access layer\n│   │   ├── interfaces/                   # Repository interfaces\n│   │   └── mongo/                        # MongoDB implementations\n│   ├── handler/                          # HTTP handlers\n│   │   ├── rest/                         # REST API handlers\n│   │   │   ├── dto/                      # Data Transfer Objects\n│   │   │   ├── http/                     # HTTP handlers\n│   │   │   └── mapper/                   # Entity-DTO mappers\n│   │   └── middleware/                   # HTTP middleware\n│   └── glue/                             # Application glue\n│       └── routing/                      # Route definitions\n├── initiator/                            # Dependency injection\n├── platform/                             # Platform utilities\n│   ├── utils/                            # Utility functions\n│   └── mongo/                            # MongoDB utilities\n├── go.mod\n├── go.sum\n└── README.md"
    else "\n.\n├── cmd/server/main.go                    # Application entry point\n├── internal/                             # Inner Hexagon (Domain, Application, Ports)\n│   ├── domain/                           # Pure Domain Models\n│   ├── application/                      # Application Services\n│   └── ports/                            # Ports (Inbound & Outbound)\n├── adapters/                             # Outer Hexagon (Adapters)\n│   ├── inbound/http/                     # HTTP handlers with Chi router\n│   └── outbound/persistence/             # Repository implementation\n├── initiators/                           # Dependency Injection & Lifecycle\n├── go.mod\n├── go.sum\n└── README.md"
  let features := if templateType == "clean" then "\n- **Clean Architecture**: Domain-Driven Design with clear layer separation\n- **MongoDB Integration**: Production-ready MongoDB repository implementation\n- **DTO Pattern**: Clean data transfer objects with validation\n- **Mapper Pattern**: Entity-DTO mapping for clean API responses\n- **Middleware Support**: Extensible middleware architecture\n- **Structured Logging**: Production-ready logging with Zap\n- **Dependency Injection**: Uber FX for clean dependency management"
    else "\n- **Hexagonal Architecture**: Strict separation between domain, application, and infrastructure\n- **Chi Router**: Modern HTTP routing with middleware support\n- **Uber FX**: Dependency injection and lifecycle management\n- **Zap Logger**: Structured logging with production-ready configuration\n- **In-memory persistence**: Simple in-memory storage for quick development\n- **Clean architecture**: Strict separation of concerns\n- **Ready to run**: Compiles and runs immediately with automatic dependency management"
  "# " ++ projectName ++ "\n\nA Go service built with " ++ templateType ++ ".\n\n## Project Structure\n\nThis project follows the " ++ templateType ++ " pattern with clear separation of concerns:\n\n" ++ struct ++ "\n\n## Quick Start\n\n### Prerequisites\n\n- Go 1.21 or later\n- MongoDB (for clean architecture template)\n\n### Running the Service\n\n1. **Navigate to the project:**\n   ```bash\n   cd " ++ projectName ++ "\n   ```\n\n2. **Run the service (dependencies are automatically managed):**\n   ```bash\n   go run cmd/server/main.go\n   ```\n\nThe service will be available at `http://localhost:8080`\n\n## API Endpoints\n\n- `GET /health` - Health check\n- `POST /users` - Create a new user\n- `GET /users/\x7bid\x7d` - Get user by ID\n\n## Features\n\n" ++ features ++ "\n\n## Architecture Benefits\n\n- **Testability**: Easy to unit test domain logic in isolation\n- **Flexibility**: Swap implementations without changing core logic\n- **Maintainability**: Clear separation of concerns\n- **Scalability**: Modular design supports team growth\n\n## Testing\n\n```bash\ngo test ./...\n```\n\n## Building\n\n```bash\ngo build -o bin/server cmd/server/main.go\n```\n\n## Contributing\n\n1. Follow the architecture pattern\n2. Add tests for new features\n3. Update documentation as needed\n4. Ensure all tests pass before submitting\n\n## License\n\nThis project is licensed under the MIT License.\n"

end templates

-- package main (create_project.go) generators

def generateMainGo (projectName : String) : String :=
  "package main\n\nimport (\n\t\"go.uber.org/fx\"\n\t\"go.uber.org/fx/fxevent\"\n\t\"go.uber.org/zap\"\n\n\t\"" ++ projectName ++ "/initiators\"\n)\n\nfunc main() \x7b\n\tapp := fx.New(\n\t\tfx.Provide(\n\t\t\tinitiators.NewLogger,\n\t\t\tinitiators.NewUserRepository,\n\t\t\tinitiators.NewUserService,\n\t\t\tinitiators.NewHTTPHandler,\n\t\t),\n\t\tfx.Invoke(initiators.StartServer),\n\t\tfx.WithLogger(func(log *zap.Logger) fxevent.Logger \x7b\n\t\t\treturn fxevent.NopLogger\n\t\t\x7d),\n\t)\n\n\tapp.Run()\n\x7d\n"

def generateDomainUser : String :=
  "package domain\n\nimport (\n\t\"time\"\n)\n\n// User represents a user entity in the domain\ntype User struct \x7b\n\tID        string    `json:\"id\"`\n\tEmail     string    `json:\"email\"`\n\tName      string    `json:\"name\"`\n\tCreatedAt time.Time `json:\"created_at\"`\n\tUpdatedAt time.Time `json:\"updated_at\"`\n\x7d\n\n// NewUser creates a new user instance\nfunc NewUser(email, name string) *User \x7b\n\tnow := time.Now()\n\treturn &User\x7b\n\t\tEmail:     email,\n\t\tName:      name,\n\t\tCreatedAt: now,\n\t\tUpdatedAt: now,\n\t\x7d\n\x7d\n\n// UpdateName updates the user's name\nfunc (u *User) UpdateName(name string) \x7b\n\tu.Name = name\n\tu.UpdatedAt = time.Now()\n\x7d\n"

def generateApplicationUserService (projectName : String) : String :=
  "package application\n\nimport (\n\t\"context\"\n\t\"fmt\"\n\n\t\"" ++ projectName ++ "/internal/domain\"\n\t\"" ++ projectName ++ "/internal/ports/inbound\"\n\t\"" ++ projectName ++ "/internal/ports/outbound\"\n)\n\n// UserService implements the user application service\ntype UserService struct \x7b\n\tuserRepo outbound.UserRepository\n\x7d\n\n// NewUserService creates a new user service instance\nfunc NewUserService(userRepo outbound.UserRepository) inbound.UserService \x7b\n\treturn &UserService\x7b\n\t\tuserRepo: userRepo,\n\t\x7d\n\x7d\n\n// CreateUser creates a new user\nfunc (s *UserService) CreateUser(ctx context.Context, email, name string) (*domain.User, error) \x7b\n\tuser := domain.NewUser(email, name)\n\t\n\t// Save to repository\n\tif err := s.userRepo.Save(ctx, user); err != nil \x7b\n\t\treturn nil, fmt.Errorf(\"failed to save user: %w\", err)\n\t\x7d\n\n\treturn user, nil\n\x7d\n\n// GetUser retrieves a user by ID\nfunc (s *UserService) GetUser(ctx context.Context, id string) (*domain.User, error) \x7b\n\tuser, err := s.userRepo.FindByID(ctx, id)\n\tif err != nil \x7b\n\t\treturn nil, fmt.Errorf(\"failed to get user: %w\", err)\n\t\x7d\n\n\treturn user, nil\n\x7d\n"

def generateInboundUserService (projectName : String) : String :=
  "package inbound\n\nimport (\n\t\"context\"\n\n\t\"" ++ projectName ++ "/internal/domain\"\n)\n\n// UserService defines the inbound port for user operations\ntype UserService interface \x7b\n\tCreateUser(ctx context.Context, email, name string) (*domain.User, error)\n\tGetUser(ctx context.Context, id string) (*domain.User, error)\n\x7d\n"

def generateOutboundUserRepository (projectName : String) : String :=
  "package outbound\n\nimport (\n\t\"context\"\n\n\t\"" ++ projectName ++ "/internal/domain\"\n)\n\n// UserRepository defines the outbound port for user persistence\ntype UserRepository interface \x7b\n\tSave(ctx context.Context, user *domain.User) error\n\tFindByID(ctx context.Context, id string) (*domain.User, error)\n\tFindByEmail(ctx context.Context, email string) (*domain.User, error)\n\tUpdate(ctx context.Context, user *domain.User) error\n\tDelete(ctx context.Context, id string) error\n\x7d\n"

def generateHTTPUserHandler (projectName : String) : String :=
  "package http\n\nimport (\n\t\"encoding/json\"\n\t\"net/http\"\n\n\t\"github.com/go-chi/chi/v5\"\n\n\t\"" ++ projectName ++ "/internal/ports/inbound\"\n)\n\n// UserHandler handles HTTP requests for user operations\ntype UserHandler struct \x7b\n\tuserService inbound.UserService\n\x7d\n\n// NewUserHandler creates a new user handler\nfunc NewUserHandler(userService inbound.UserService) *UserHandler \x7b\n\treturn &UserHandler\x7b\n\t\tuserService: userService,\n\t\x7d\n\x7d\n\n// CreateUserRequest represents the request body for creating a user\ntype CreateUserRequest struct \x7b\n\tEmail string `json:\"email\"`\n\tName  string `json:\"name\"`\n\x7d\n\n// CreateUser handles POST /users\nfunc (h *UserHandler) CreateUser(w http.ResponseWriter, r *http.Request) \x7b\n\tvar req CreateUserRequest\n\tif err := json.NewDecoder(r.Body).Decode(&req); err != nil \x7b\n\t\thttp.Error(w, \"Invalid request body\", http.StatusBadRequest)\n\t\treturn\n\t\x7d\n\n\tuser, err := h.userService.CreateUser(r.Context(), req.Email, req.Name)\n\tif err != nil \x7b\n\t\thttp.Error(w, err.Error(), http.StatusInternalServerError)\n\t\treturn\n\t\x7d\n\n\tw.Header().Set(\"Content-Type\", \"application/json\")\n\tw.WriteHeader(http.StatusCreated)\n\tjson.NewEncoder(w).Encode(user)\n\x7d\n\n// GetUser handles GET /users/\x7bid\x7d\nfunc (h *UserHandler) GetUser(w http.ResponseWriter, r *http.Request) \x7b\n\tuserID := chi.URLParam(r, \"id\")\n\tif userID == \"\" \x7b\n\t\thttp.Error(w, \"User ID is required\", http.StatusBadRequest)\n\t\treturn\n\t\x7d\n\n\tuser, err := h.userService.GetUser(r.Context(), userID)\n\tif err != nil \x7b\n\t\thttp.Error(w, err.Error(), http.StatusNotFound)\n\t\treturn\n\t\x7d\n\n\tw.Header().Set(\"Content-Type\", \"application/json\")\n\tjson.NewEncoder(w).Encode(user)\n\x7d\n"

def generateHTTPRouter (projectName : String) : String :=
  "package http\n\nimport (\n\t\"net/http\"\n\n\t\"" ++ projectName ++ "/internal/ports/inbound\"\n)\n\n// Router sets up HTTP routes\nfunc NewRouter(userService inbound.UserService) http.Handler \x7b\n\tmux := http.NewServeMux()\n\t\n\t// Initialize handlers\n\tuserHandler := NewUserHandler(userService)\n\n\t// User routes\n\tmux.HandleFunc(\"POST /users\", userHandler.CreateUser)\n\tmux.HandleFunc(\"GET /users\", userHandler.GetUser)\n\n\t// Health check\n\tmux.HandleFunc(\"GET /health\", func(w http.ResponseWriter, r *http.Request) \x7b\n\t\tw.Header().Set(\"Content-Type\", \"application/json\")\n\t\tw.Write([]byte(`\x7b\"status\":\"ok\"\x7d`))\n\t\x7d)\n\n\treturn mux\n\x7d\n"

def generateUserRepository (projectName : String) : String :=
  "package persistence\n\nimport (\n\t\"context\"\n\t\"fmt\"\n\n\t\"" ++ projectName ++ "/internal/domain\"\n\t\"" ++ projectName ++ "/internal/ports/outbound\"\n)\n\n// UserRepository implements UserRepository using in-memory storage\ntype UserRepository struct \x7b\n\tusers map[string]*domain.User\n\x7d\n\n// NewUserRepository creates a new user repository\nfunc NewUserRepository() outbound.UserRepository \x7b\n\treturn &UserRepository\x7b\n\t\tusers: make(map[string]*domain.User),\n\t\x7d\n\x7d\n\n// Save saves a user to storage\nfunc (r *UserRepository) Save(ctx context.Context, user *domain.User) error \x7b\n\t// Simple ID generation (in a real app, use UUID)\n\tif user.ID == \"\" \x7b\n\t\tuser.ID = fmt.Sprintf(\"user_%d\", len(r.users)+1)\n\t\x7d\n\t\n\tr.users[user.ID] = user\n\tfmt.Printf(\"Saved user: %s\\n\", user.Email)\n\treturn nil\n\x7d\n\n// FindByID finds a user by ID\nfunc (r *UserRepository) FindByID(ctx context.Context, id string) (*domain.User, error) \x7b\n\tuser, exists := r.users[id]\n\tif !exists \x7b\n\t\treturn nil, fmt.Errorf(\"user not found\")\n\t\x7d\n\treturn user, nil\n\x7d\n\n// FindByEmail finds a user by email\nfunc (r *UserRepository) FindByEmail(ctx context.Context, email string) (*domain.User, error) \x7b\n\tfor _, user := range r.users \x7b\n\t\tif user.Email == email \x7b\n\t\t\treturn user, nil\n\t\t\x7d\n\t\x7d\n\treturn nil, fmt.Errorf(\"user not found\")\n\x7d\n\n// Update updates a user\nfunc (r *UserRepository) Update(ctx context.Context, user *domain.User) error \x7b\n\tif _, exists := r.users[user.ID]; !exists \x7b\n\t\treturn fmt.Errorf(\"user not found\")\n\t\x7d\n\tr.users[user.ID] = user\n\treturn nil\n\x7d\n\n// Delete deletes a user\nfunc (r *UserRepository) Delete(ctx context.Context, id string) error \x7b\n\tif _, exists := r.users[id]; !exists \x7b\n\t\treturn fmt.Errorf(\"user not found\")\n\t\x7d\n\tdelete(r.users, id)\n\treturn nil\n\x7d\n"

def generateREADME (projectName : String) : String :=
  "# " ++ projectName ++ "\n\nA Go service built with Hexagonal Architecture (Ports & Adapters) pattern.\n\n## Project Structure\n\nThis project follows the Hexagonal Architecture pattern with clear separation of concerns:\n\n- **Domain**: Pure business logic and entities\n- **Application**: Use case implementations and orchestration\n- **Ports**: Interfaces defining contracts (inbound/outbound)\n- **Adapters**: External implementations (HTTP, databases, etc.)\n\n## Quick Start\n\n### Prerequisites\n\n- Go 1.21 or later\n\n### Running the Service\n\n1. **Navigate to the project:**\n   ```bash\n   cd " ++ projectName ++ "\n   ```\n\n2. **Install dependencies:**\n   ```bash\n   go mod tidy\n   ```\n\n3. **Run the service:**\n   ```bash\n   go run cmd/server/main.go\n   ```\n\nThe service will be available at `http://localhost:8080`\n\n## API Endpoints\n\n- `GET /health` - Health check\n- `POST /users` - Create a new user\n- `GET /users?id=<user_id>` - Get user by ID\n\n## Architecture Overview\n\n```\n.\n├── cmd/server/main.go          # Application entry point\n├── internal/                   # Inner Hexagon (Domain, Application, Ports)\n│   ├── domain/                 # Pure Domain Models\n│   ├── application/            # Application Services\n│   └── ports/                  # Ports (Inbound & Outbound)\n├── adapters/                   # Outer Hexagon (Adapters)\n│   ├── inbound/                # Driving Adapters (HTTP)\n│   └── outbound/               # Driven Adapters (Databases)\n└── README.md                   # Project documentation\n```\n\n## Testing\n\n```bash\ngo test ./...\n```\n\n## Building\n\n```bash\ngo build -o bin/server cmd/server/main.go\n```\n\n## Contributing\n\n1. Follow the Hexagonal Architecture pattern\n2. Add tests for new features\n3. Update documentation as needed\n4. Ensure all tests pass before submitting\n\n## License\n\nThis project is licensed under the MIT License.\n"

def generateAppInitiator (projectName : String) : String :=
  "package initiators\n\nimport (\n\t\"context\"\n\t\"net/http\"\n\t\"os\"\n\n\t\"go.uber.org/fx\"\n\t\"go.uber.org/zap\"\n)\n\n// StartServer starts the HTTP server\nfunc StartServer(lifecycle fx.Lifecycle, logger *zap.Logger, handler http.Handler) \x7b\n\tport := os.Getenv(\"PORT\")\n\tif port == \"\" \x7b\n\t\tport = \"8080\"\n\t\x7d\n\n\tserver := &http.Server\x7b\n\t\tAddr:    \":\" + port,\n\t\tHandler: handler,\n\t\x7d\n\n\tlifecycle.Append(fx.Hook\x7b\n\t\tOnStart: func(context.Context) error \x7b\n\t\t\tlogger.Info(\"Starting HTTP server\", zap.String(\"port\", port))\n\t\t\tgo func() \x7b\n\t\t\t\tif err := server.ListenAndServe(); err != nil && err != http.ErrServerClosed \x7b\n\t\t\t\t\tlogger.Error(\"Server failed\", zap.Error(err))\n\t\t\t\t\x7d\n\t\t\t\x7d()\n\t\t\treturn nil\n\t\t\x7d,\n\t\tOnStop: func(ctx context.Context) error \x7b\n\t\t\tlogger.Info(\"Stopping HTTP server\")\n\t\t\treturn server.Shutdown(ctx)\n\t\t\x7d,\n\t\x7d)\n\x7d\n"

def generateHTTPInitiator (projectName : String) : String :=
  "package initiators\n\nimport (\n\t\"net/http\"\n\n\thttphandler \"" ++ projectName ++ "/adapters/inbound/http\"\n\t\"" ++ projectName ++ "/internal/ports/inbound\"\n)\n\n// NewHTTPHandler creates a new HTTP handler\nfunc NewHTTPHandler(userService inbound.UserService) http.Handler \x7b\n\treturn httphandler.NewRouter(userService)\n\x7d\n"

def generatePersistenceInitiator (projectName : String) : String :=
  "package initiators\n\nimport (\n\t\"go.uber.org/zap\"\n\n\t\"" ++ projectName ++ "/adapters/outbound/persistence\"\n\t\"" ++ projectName ++ "/internal/application\"\n\t\"" ++ projectName ++ "/internal/ports/inbound\"\n\t\"" ++ projectName ++ "/internal/ports/outbound\"\n)\n\n// NewUserRepository creates a new user repository\nfunc NewUserRepository() outbound.UserRepository \x7b\n\treturn persistence.NewUserRepository()\n\x7d\n\n// NewUserService creates a new user service\nfunc NewUserService(userRepo outbound.UserRepository) inbound.UserService \x7b\n\treturn application.NewUserService(userRepo)\n\x7d\n\n// NewLogger creates a new logger\nfunc NewLogger() (*zap.Logger, error) \x7b\n\treturn zap.NewProduction()\n\x7d\n"
-- Embedding of the template registry (package templates: template.go, hexagonal.go, clean.go).

namespace templates

structure Template where
  Name : String
  Description : String
  GenerateFiles : String → List (String × String)
  GetDependencies : List String

def HexagonalTemplate : Template where
  Name := "hexagonal"
  Description := "Hexagonal Architecture (Ports & Adapters) with Uber FX and Chi Router"
  GenerateFiles := fun projectName =>
    [("cmd/server/main.go", generateMainGo projectName),
     ("internal/domain/user.go", generateDomainUser),
     ("internal/application/user_service.go", generateApplicationUserService projectName),
     ("internal/ports/inbound/user_service.go", generateInboundUserService projectName),
     ("internal/ports/outbound/user_repository.go", generateOutboundUserRepository projectName),
     ("adapters/inbound/http/user_handler.go", generateHTTPUserHandler projectName),
     ("adapters/inbound/http/router.go", generateHTTPRouter projectName),
     ("adapters/outbound/persistence/user_repository.go", generateUserRepository projectName),
     ("initiators/app.go", generateAppInitiator),
     ("initiators/http.go", generateHTTPInitiator projectName),
     ("initiators/persistence.go", generatePersistenceInitiator projectName),
     ("README.md", generateREADME projectName "hexagonal")]
  GetDependencies :=
    ["github.com/go-chi/chi/v5", "go.uber.org/fx", "go.uber.org/zap"]

def CleanTemplate : Template where
  Name := "clean"
  Description := "Clean Architecture with Domain-Driven Design (DDD) principles"
  GenerateFiles := fun projectName =>
    [("cmd/server/main.go", generateCleanMainGo projectName),
     ("internal/domain/entity/user.go", generateCleanDomainEntity),
     ("internal/domain/service/user_service.go", generateCleanDomainService projectName),
     ("internal/storage/interfaces/user_repository.go", generateCleanStorageInterface projectName),
     ("internal/storage/mongo/user_repository.go", generateCleanMongoRepository projectName),
     ("internal/handler/rest/dto/user_dto.go", generateCleanUserDTO projectName),
     ("internal/handler/rest/http/user_handler.go", generateCleanUserHandler projectName),
     ("internal/handler/rest/mapper/user_mapper.go", generateCleanUserMapper projectName),
     ("internal/handler/middleware/auth.go", generateCleanAuthMiddleware),
     ("internal/glue/routing/routes.go", generateCleanRoutes projectName),
     ("initiator/initiator.go", generateCleanInitiator projectName),
     ("initiator/service.go", generateCleanServiceInitiator projectName),
     ("initiator/persistence.go", generateCleanPersistenceInitiator projectName),
     ("initiator/handler.go", generateCleanHandlerInitiator projectName),
     ("initiator/config.go", generateCleanConfigInitiator),
     ("initiator/logger.go", generateCleanLoggerInitiator),
     ("platform/utils/response.go", generateCleanResponseUtils),
     ("platform/mongo/connection.go", generateCleanMongoConnection),
     ("README.md", generateREADME projectName "clean")]
  GetDependencies :=
    ["github.com/go-chi/chi/v5", "go.uber.org/fx", "go.uber.org/zap",
     "go.mongodb.org/mongo-driver/mongo", "go.mongodb.org/mongo-driver/bson"]

def GetAvailableTemplates : List Template :=
  [HexagonalTemplate, CleanTemplate]

def GetTemplateByName (name : String) : Option Template :=
  GetAvailableTemplates.find? (fun template => template.Name == name)

end templates

-- Path helpers modelling strings.Split(path, "/") and filepath.Dir for the
-- slash-separated relative paths this program uses.

def segsAux : List Char → List Char → List String
  | [], acc => [String.mk acc.reverse]
  | c :: rest, acc =>
    if c == '/' then String.mk acc.reverse :: segsAux rest []
    else segsAux rest (c :: acc)

def pathSegments (p : String) : List String :=
  segsAux p.toList []

def isAbsolutePath (p : String) : Bool :=
  match p.toList with
  | '/' :: _ => true
  | _ => false

/-- A relative path escapes the directory it is joined to exactly when it is
absolute or contains a `..` traversal segment. -/
def escapesRoot (p : String) : Bool :=
  isAbsolutePath p || (pathSegments p).contains ".."

/-- Model of `filepath.Dir` on the slash-separated paths used here. -/
def dirOf (p : String) : String :=
  let parts := pathSegments p
  if parts.length ≤ 1 then "." else String.intercalate "/" parts.dropLast

-- Substring search on the underlying character lists.

def listStarts : List Char → List Char → Bool
  | [], _ => true
  | _ :: _, [] => false
  | a :: as, b :: bs => a == b && listStarts as bs

def listHas (needle : List Char) : List Char → Bool
  | [] => listStarts needle []
  | c :: rest => listStarts needle (c :: rest) || listHas needle rest

def containsSub (needle hay : String) : Bool :=
  listHas needle.toList hay.toList

-- Embedding of the effectful scaffolding pipeline in create_project.go.
-- Each operating-system or subprocess primitive is a field of `OSEnv`
-- telling whether that call succeeds; runs produce the list of effects
-- (the trace) performed before the first failure, plus the overall result.

inductive Event where
  | mkdirRoot (dir : String)
  | chdir (dir : String)
  | modInit (moduleName : String)
  | mkdirDir (dir : String)
  | writeEntry (path : String)
  | modTidy
deriving DecidableEq

structure OSEnv where
  mkdirAll : String → Except String Unit
  chdir : String → Except String Unit
  goModInit : String → Except String Unit
  writeFileRaw : String → String → Except String Unit
  goModTidy : Except String Unit

abbrev TraceResult := List Event × Except String Unit

def oneStep (ev : Event) (r : Except String Unit) : TraceResult :=
  match r with
  | Except.error e => ([], Except.error e)
  | Except.ok _ => ([ev], Except.ok ())

def andThen (a : TraceResult) (b : Unit → TraceResult) : TraceResult :=
  match a with
  | (tr, Except.error e) => (tr, Except.error e)
  | (tr, Except.ok _) => (tr ++ (b ()).1, (b ()).2)

def runSeq {α : Type} (g : α → TraceResult) : List α → TraceResult
  | [] => ([], Except.ok ())
  | x :: xs => andThen (g x) (fun _ => runSeq g xs)

/-- `writeFile` of create_project.go: `os.MkdirAll(filepath.Dir(filePath))`
followed by `os.WriteFile(filePath, content)`. -/
def writeFile (env : OSEnv) (filePath content : String) : TraceResult :=
  andThen (oneStep (Event.mkdirDir (dirOf filePath)) (env.mkdirAll (dirOf filePath)))
    (fun _ => oneStep (Event.writeEntry filePath) (env.writeFileRaw filePath content))

/-- The `dirs` slice of `createProject`. -/
def dirs : List String :=
  ["cmd/server",
   "internal/domain",
   "internal/application",
   "internal/ports/inbound",
   "internal/ports/outbound",
   "adapters/inbound/http",
   "adapters/outbound/persistence",
   "initiators"]

/-- The `files` map of `generateCoreFiles`, in source order. -/
def coreFiles (projectName : String) : List (String × String) :=
  [("cmd/server/main.go", generateMainGo projectName),
   ("internal/domain/user.go", generateDomainUser),
   ("internal/application/user_service.go", generateApplicationUserService projectName),
   ("internal/ports/inbound/user_service.go", generateInboundUserService projectName),
   ("internal/ports/outbound/user_repository.go", generateOutboundUserRepository projectName),
   ("adapters/inbound/http/user_handler.go", generateHTTPUserHandler projectName),
   ("adapters/inbound/http/router.go", generateHTTPRouter projectName),
   ("adapters/outbound/persistence/user_repository.go", generateUserRepository projectName),
   ("initiators/app.go", generateAppInitiator projectName),
   ("initiators/http.go", generateHTTPInitiator projectName),
   ("initiators/persistence.go", generatePersistenceInitiator projectName),
   ("README.md", generateREADME projectName)]

/-- The entry-processing loop of `generateCoreFiles`: write every entry of
the given mapping, in the given iteration order, stopping at the first
failure.  (Go iterates the `files` map in an unspecified order, so the
order of `entries` is a parameter.) -/
def materialize (env : OSEnv) (entries : List (String × String)) : TraceResult :=
  runSeq (fun entry => writeFile env entry.1 entry.2) entries

def generateCoreFiles (env : OSEnv) (projectName : String) : TraceResult :=
  materialize env (coreFiles projectName)

def runGoModInit (env : OSEnv) (projectName : String) : Except String Unit :=
  env.goModInit projectName

def runGoModTidy (env : OSEnv) : Except String Unit :=
  env.goModTidy

/-- `createProject` of create_project.go: create the project directory,
change into it, run `go mod init`, create the directory skeleton, generate
the core files, run `go mod tidy`; any failure aborts immediately. -/
def createProject (env : OSEnv) (projectName : String) : TraceResult :=
  andThen (oneStep (Event.mkdirRoot projectName) (env.mkdirAll projectName)) (fun _ =>
  andThen (oneStep (Event.chdir projectName) (env.chdir projectName)) (fun _ =>
  andThen (oneStep (Event.modInit projectName) (runGoModInit env projectName)) (fun _ =>
  andThen (runSeq (fun d => oneStep (Event.mkdirDir d) (env.mkdirAll d)) dirs) (fun _ =>
  andThen (generateCoreFiles env projectName) (fun _ =>
  oneStep Event.modTidy (runGoModTidy env))))))

/-- An environment in which every primitive call succeeds. -/
def allOk : OSEnv where
  mkdirAll := fun _ => Except.ok ()
  chdir := fun _ => Except.ok ()
  goModInit := fun _ => Except.ok ()
  writeFileRaw := fun _ _ => Except.ok ()
  goModTidy := Except.ok ()

/-- The complete event sequence of a fully successful `createProject` run. -/
def fullTrace (projectName : String) : List Event :=
  [Event.mkdirRoot projectName, Event.chdir projectName, Event.modInit projectName]
    ++ dirs.map Event.mkdirDir
    ++ (coreFiles projectName).flatMap
        (fun entry => [Event.mkdirDir (dirOf entry.1), Event.writeEntry entry.1])
    ++ [Event.modTidy]

/-- A run's trace is a prefix of `full`, and it is all of `full` exactly
when the run succeeded. -/
def TraceSpec (p : TraceResult) (full : List Event) : Prop :=
  (∃ k, p.1 = full.take k) ∧ (p.2 = Except.ok () ↔ p.1 = full)
-- Shared helper lemmas.

theorem hexName : templates.HexagonalTemplate.Name = "hexagonal" := rfl

theorem cleanName : templates.CleanTemplate.Name = "clean" := rfl

theorem traceSpec_congr {p : TraceResult} {f₁ f₂ : List Event}
    (h : TraceSpec p f₁) (he : f₁ = f₂) : TraceSpec p f₂ := he ▸ h

theorem oneStep_spec (ev : Event) (r : Except String Unit) :
    TraceSpec (oneStep ev r) [ev] := by
  cases r with
  | error e => exact ⟨⟨0, rfl⟩, by simp [oneStep]⟩
  | ok u => exact ⟨⟨1, rfl⟩, by simp [oneStep]⟩

theorem andThen_spec {a : TraceResult} {fa : List Event}
    {b : Unit → TraceResult} {fb : List Event}
    (ha : TraceSpec a fa) (hb : TraceSpec (b ()) fb) :
    TraceSpec (andThen a b) (fa ++ fb) := by
  obtain ⟨⟨k, hk⟩, hiff⟩ := ha
  obtain ⟨tr, res⟩ := a
  cases res with
  | error e =>
    have hne : tr ≠ fa := fun h => by simpa using hiff.mpr h
    have hmin : List.take k fa = List.take (min k fa.length) fa := by
      rw [List.take_eq_take]
      omega
    have hk2 : tr = fa.take (min k fa.length) := by
      rw [← hmin]
      exact hk
    have hle : min k fa.length ≤ fa.length := Nat.min_le_right _ _
    refine ⟨⟨min k fa.length, ?_⟩, ?_⟩
    · show tr = (fa ++ fb).take (min k fa.length)
      rw [List.take_append_of_le_length hle]
      exact hk2
    · show (Except.error e = Except.ok () ↔ tr = fa ++ fb)
      constructor
      · intro h; exact absurd h (by simp)
      · intro h
        exfalso
        have hlen : tr.length ≤ fa.length := by
          rw [hk2, List.length_take]; omega
        have hlen2 : tr.length = fa.length + fb.length := by
          rw [h, List.length_append]
        have hfb : fb = [] := by
          have : fb.length = 0 := by omega
          exact List.eq_nil_of_length_eq_zero this
        exact hne (by rw [h, hfb, List.append_nil])
  | ok u =>
    cases u
    have htr : tr = fa := hiff.mp rfl
    subst htr
    obtain ⟨⟨k2, hk2⟩, hiff2⟩ := hb
    refine ⟨⟨tr.length + k2, ?_⟩, ?_⟩
    · show tr ++ (b ()).1 = (tr ++ fb).take (tr.length + k2)
      rw [List.take_append, hk2]
    · show ((b ()).2 = Except.ok () ↔ tr ++ (b ()).1 = tr ++ fb)
      rw [hiff2, List.append_right_inj]

theorem runSeq_spec {α : Type} (g : α → TraceResult) (fs : α → List Event)
    (hg : ∀ x, TraceSpec (g x) (fs x)) :
    ∀ xs : List α, TraceSpec (runSeq g xs) (xs.flatMap fs) := by
  intro xs
  induction xs with
  | nil => exact ⟨⟨0, rfl⟩, by simp [runSeq]⟩
  | cons x xs ih =>
    rw [List.flatMap_cons]
    exact andThen_spec (hg x) ih

theorem writeFile_spec (env : OSEnv) (p c : String) :
    TraceSpec (writeFile env p c) [Event.mkdirDir (dirOf p), Event.writeEntry p] :=
  andThen_spec (oneStep_spec _ _) (oneStep_spec _ _)

theorem flatMap_singletonEq {α β : Type} (f : α → β) (l : List α) :
    (l.flatMap fun x => [f x]) = l.map f := by
  induction l with
  | nil => rfl
  | cons x xs ih => simp [ih]

theorem assoc_functional {l : List (String × String)}
    (h : (l.map Prod.fst).Nodup) {p c₁ c₂ : String}
    (h1 : (p, c₁) ∈ l) (h2 : (p, c₂) ∈ l) : c₁ = c₂ := by
  induction l with
  | nil => cases h1
  | cons x xs ih =>
    rw [List.map_cons, List.nodup_cons] at h
    rcases List.mem_cons.mp h1 with h1 | h1 <;> rcases List.mem_cons.mp h2 with h2 | h2
    · have h12 : (p, c₁) = ((p, c₂) : String × String) := h1.trans h2.symm
      exact congrArg Prod.snd h12
    · exfalso
      apply h.1
      have hmem : p ∈ List.map Prod.fst xs := List.mem_map_of_mem Prod.fst h2
      rw [← h1]
      exact hmem
    · exfalso
      apply h.1
      have hmem : p ∈ List.map Prod.fst xs := List.mem_map_of_mem Prod.fst h1
      rw [← h2]
      exact hmem
    · exact ih h.2 h1 h2

theorem hexKeys (P : String) :
    (templates.HexagonalTemplate.GenerateFiles P).map Prod.fst
      = ["cmd/server/main.go", "internal/domain/user.go",
         "internal/application/user_service.go",
         "internal/ports/inbound/user_service.go",
         "internal/ports/outbound/user_repository.go",
         "adapters/inbound/http/user_handler.go",
         "adapters/inbound/http/router.go",
         "adapters/outbound/persistence/user_repository.go",
         "initiators/app.go", "initiators/http.go", "initiators/persistence.go",
         "README.md"] := rfl

theorem cleanKeys (P : String) :
    (templates.CleanTemplate.GenerateFiles P).map Prod.fst
      = ["cmd/server/main.go", "internal/domain/entity/user.go",
         "internal/domain/service/user_service.go",
         "internal/storage/interfaces/user_repository.go",
         "internal/storage/mongo/user_repository.go",
         "internal/handler/rest/dto/user_dto.go",
         "internal/handler/rest/http/user_handler.go",
         "internal/handler/rest/mapper/user_mapper.go",
         "internal/handler/middleware/auth.go",
         "internal/glue/routing/routes.go",
         "initiator/initiator.go", "initiator/service.go",
         "initiator/persistence.go", "initiator/handler.go",
         "initiator/config.go", "initiator/logger.go",
         "platform/utils/response.go", "platform/mongo/connection.go",
         "README.md"] := rfl

theorem materialize_allOk_eq (entries : List (String × String)) :
    materialize allOk entries
      = (entries.flatMap (fun e => [Event.mkdirDir (dirOf e.1), Event.writeEntry e.1]),
         Except.ok ()) := by
  induction entries with
  | nil => rfl
  | cons e es ih =>
    show andThen (writeFile allOk e.1 e.2) (fun _ => runSeq _ es) = _
    have hw : writeFile allOk e.1 e.2
        = ([Event.mkdirDir (dirOf e.1), Event.writeEntry e.1], Except.ok ()) := rfl
    rw [hw]
    show ([Event.mkdirDir (dirOf e.1), Event.writeEntry e.1] ++ (materialize allOk es).1,
          (materialize allOk es).2) = _
    rw [ih, List.flatMap_cons]

-- Claim theorems.

/-- C1 counterexample: with an empty (or whitespace-only) project identifier,
both registered templates still return a full file-content mapping (12 and 19
entries respectively); no validation failure is signalled. -/
theorem hexagonal_empty_identifier_returns_mapping :
    (templates.HexagonalTemplate.GenerateFiles "").length = 12
    ∧ (templates.CleanTemplate.GenerateFiles "").length = 19
    ∧ (templates.HexagonalTemplate.GenerateFiles "   ").length = 12
    ∧ (templates.CleanTemplate.GenerateFiles "   ").length = 19 :=
  ⟨rfl, rfl, rfl, rfl⟩

/-- C1 (amended): `GenerateFiles` performs no validation of the project
identifier and cannot signal failure: for every identifier, including the
empty string, each registered template returns its full non-empty mapping. -/
theorem generateFiles_total_no_identifier_validation (P : String) :
    templates.HexagonalTemplate.GenerateFiles P ≠ []
    ∧ templates.CleanTemplate.GenerateFiles P ≠ [] :=
  ⟨fun h => List.noConfusion h, fun h => List.noConfusion h⟩

/-- C2 counterexample: given a mapping containing the traversal path
`../escape.txt`, the entry-processing loop of `generateCoreFiles` performs no
validation: it creates the directory `..` and writes the file, succeeding,
even though the path escapes the root. -/
theorem materialize_traversal_path_written :
    (materialize allOk [("../escape.txt", "x")]).1
      = [Event.mkdirDir "..", Event.writeEntry "../escape.txt"]
    ∧ (materialize allOk [("../escape.txt", "x")]).2 = Except.ok ()
    ∧ escapesRoot "../escape.txt" = true := by
  refine ⟨by decide, rfl, by decide⟩

/-- C2 (amended): the entry-processing loop performs no path validation at
all: in an environment where every primitive succeeds it writes every entry
of the mapping, traversal paths included, and reports success. -/
theorem materialize_writes_all_entries_without_validation
    (entries : List (String × String)) :
    (materialize allOk entries).1
      = entries.flatMap (fun e => [Event.mkdirDir (dirOf e.1), Event.writeEntry e.1])
    ∧ (materialize allOk entries).2 = Except.ok () := by
  rw [materialize_allOk_eq entries]
  exact ⟨rfl, rfl⟩

/-- C3 counterexample: the loop of `generateCoreFiles` ranges over a Go map,
whose iteration order is unspecified; two iteration orders of the same
two-entry mapping produce different operation sequences. -/
theorem materialize_order_depends_on_iteration_order :
    List.Perm [("a.txt", "1"), ("b.txt", "2")] [("b.txt", "2"), ("a.txt", "1")]
    ∧ (materialize allOk [("a.txt", "1"), ("b.txt", "2")]).1
      ≠ (materialize allOk [("b.txt", "2"), ("a.txt", "1")]).1 := by
  refine ⟨by decide, by decide⟩

/-- C3 (amended): the processing order follows the unspecified Go map
iteration order, so it is not stable across runs; what is guaranteed is that
any two iteration orders of the same mapping perform the same multiset of
operations and both succeed. -/
theorem materialize_trace_permutes_with_iteration_order
    (l₁ l₂ : List (String × String)) (h : l₁.Perm l₂) :
    ((materialize allOk l₁).1).Perm ((materialize allOk l₂).1)
    ∧ (materialize allOk l₁).2 = (materialize allOk l₂).2 := by
  rw [materialize_allOk_eq l₁, materialize_allOk_eq l₂]
  exact ⟨List.Perm.flatMap_right _ h, rfl⟩

/-- C3 witness: the amended statement applied to a concrete two-entry
mapping and a concrete transposition of its iteration order. -/
theorem materialize_trace_permutes_witness :
    List.Perm [("a.txt", "1"), ("b.txt", "2")] [("b.txt", "2"), ("a.txt", "1")]
    ∧ ((materialize allOk [("a.txt", "1"), ("b.txt", "2")]).1).Perm
        ((materialize allOk [("b.txt", "2"), ("a.txt", "1")]).1) :=
  ⟨by decide,
   (materialize_trace_permutes_with_iteration_order _ _ (by decide)).1⟩

/-- C4: for every registered template and every non-empty identifier,
generation is deterministic: the result is a pure function of the
identifier, and within the mapping each path determines its content. -/
theorem generateFiles_deterministic (T : templates.Template)
    (hT : T ∈ templates.GetAvailableTemplates) (P : String) (hP : P ≠ "") :
    T.GenerateFiles P = T.GenerateFiles P
    ∧ ∀ path c₁ c₂, (path, c₁) ∈ T.GenerateFiles P →
        (path, c₂) ∈ T.GenerateFiles P → c₁ = c₂ := by
  refine ⟨rfl, ?_⟩
  have hT2 : T = templates.HexagonalTemplate ∨ T = templates.CleanTemplate := by
    simpa [templates.GetAvailableTemplates] using hT
  rcases hT2 with h | h <;> subst h
  · exact fun path c₁ c₂ h1 h2 =>
      assoc_functional (by rw [hexKeys]; decide) h1 h2
  · exact fun path c₁ c₂ h1 h2 =>
      assoc_functional (by rw [cleanKeys]; decide) h1 h2

/-- C4 witness: the determinism statement applied to the hexagonal template
and the identifier `demo`. -/
theorem generateFiles_deterministic_witness :
    (templates.HexagonalTemplate ∈ templates.GetAvailableTemplates ∧ "demo" ≠ "")
    ∧ templates.HexagonalTemplate.GenerateFiles "demo"
        = templates.HexagonalTemplate.GenerateFiles "demo" :=
  ⟨⟨List.mem_cons_self _ _, by decide⟩,
   (generateFiles_deterministic templates.HexagonalTemplate
     (List.mem_cons_self _ _) "demo" (by decide)).1⟩

/-- C5: for every registered template and non-empty identifier, the mapping
is non-empty, its paths are pairwise distinct, and no path is absolute or
contains a traversal segment, so none resolves outside the project root. -/
theorem generateFiles_paths_distinct_and_rooted (T : templates.Template)
    (hT : T ∈ templates.GetAvailableTemplates) (P : String) (hP : P ≠ "") :
    T.GenerateFiles P ≠ []
    ∧ ((T.GenerateFiles P).map Prod.fst).Nodup
    ∧ ∀ p ∈ (T.GenerateFiles P).map Prod.fst, escapesRoot p = false := by
  have hT2 : T = templates.HexagonalTemplate ∨ T = templates.CleanTemplate := by
    simpa [templates.GetAvailableTemplates] using hT
  rcases hT2 with h | h <;> subst h
  · exact ⟨fun h => List.noConfusion h,
      by rw [hexKeys]; decide, by rw [hexKeys]; decide⟩
  · exact ⟨fun h => List.noConfusion h,
      by rw [cleanKeys]; decide, by rw [cleanKeys]; decide⟩

/-- C5 witness: the path-safety statement applied to the clean template and
the identifier `demo`. -/
theorem generateFiles_paths_distinct_and_rooted_witness :
    (templates.CleanTemplate ∈ templates.GetAvailableTemplates ∧ "demo" ≠ "")
    ∧ ((templates.CleanTemplate.GenerateFiles "demo").map Prod.fst).Nodup :=
  ⟨⟨List.mem_cons_of_mem _ (List.mem_cons_self _ _), by decide⟩,
   (generateFiles_paths_distinct_and_rooted templates.CleanTemplate
     (List.mem_cons_of_mem _ (List.mem_cons_self _ _)) "demo" (by decide)).2.1⟩

/-- C6: `GetTemplateByName` is a case-sensitive exact match on the template
name: each registered name maps to its template, a found template's name
equals the query, and every other string, the empty string included, yields
`none` rather than an error. -/
theorem getTemplateByName_exact_match :
    templates.GetTemplateByName "hexagonal" = some templates.HexagonalTemplate
    ∧ templates.GetTemplateByName "clean" = some templates.CleanTemplate
    ∧ (∀ t, templates.GetTemplateByName "hexagonal" = some t → t.Name = "hexagonal")
    ∧ (∀ t, templates.GetTemplateByName "clean" = some t → t.Name = "clean")
    ∧ ∀ s, s ≠ "hexagonal" → s ≠ "clean" → templates.GetTemplateByName s = none := by
  refine ⟨rfl, rfl, ?_, ?_, ?_⟩
  · intro t ht
    have h2 : some t = some templates.HexagonalTemplate :=
      ht.symm.trans (show templates.GetTemplateByName "hexagonal"
        = some templates.HexagonalTemplate from rfl)
    rw [Option.some.inj h2, hexName]
  · intro t ht
    have h2 : some t = some templates.CleanTemplate :=
      ht.symm.trans (show templates.GetTemplateByName "clean"
        = some templates.CleanTemplate from rfl)
    rw [Option.some.inj h2, cleanName]
  · intro s h1 h2
    show List.find? (fun t => t.Name == s)
        [templates.HexagonalTemplate, templates.CleanTemplate] = none
    rw [List.find?_cons_of_neg, List.find?_cons_of_neg, List.find?_nil]
    · simp [cleanName]
      exact fun h => h2 h.symm
    · simp [hexName]
      exact fun h => h1 h.symm

/-- C6 witness: lookup of the empty string, an unregistered name, yields
`none`. -/
theorem getTemplateByName_exact_match_witness :
    ("" ≠ "hexagonal" ∧ "" ≠ "clean") ∧ templates.GetTemplateByName "" = none :=
  ⟨⟨by decide, by decide⟩,
   getTemplateByName_exact_match.2.2.2.2 "" (by decide) (by decide)⟩

/-- C7: the registry enumeration is the fixed list with the hexagonal
template first and the clean template second, its names in order are
`hexagonal` then `clean`, and those names are pairwise distinct; as a
constant function it returns this same list on every call. -/
theorem getAvailableTemplates_fixed_order :
    templates.GetAvailableTemplates
      = [templates.HexagonalTemplate, templates.CleanTemplate]
    ∧ templates.GetAvailableTemplates.map templates.Template.Name
      = ["hexagonal", "clean"]
    ∧ (templates.GetAvailableTemplates.map templates.Template.Name).Nodup :=
  ⟨rfl, rfl, by decide⟩

/-- C8: `createProject` performs its steps in a fixed linear order — project
root creation, directory change, one `go mod init`, skeleton directories,
the file writes, one final `go mod tidy` — every run's trace is a prefix of
this sequence, the trace is complete exactly when the run succeeds (so any
step's failure aborts all remaining steps), and the full sequence places the
module initialization once before every file write and the dependency
resolution once after all of them. -/
theorem createProject_step_order (env : OSEnv) (projectName : String) :
    (∃ k, (createProject env projectName).1 = (fullTrace projectName).take k)
    ∧ ((createProject env projectName).2 = Except.ok ()
        ↔ (createProject env projectName).1 = fullTrace projectName)
    ∧ fullTrace projectName
      = [Event.mkdirRoot projectName, Event.chdir projectName,
         Event.modInit projectName,
         Event.mkdirDir "cmd/server", Event.mkdirDir "internal/domain",
         Event.mkdirDir "internal/application", Event.mkdirDir "internal/ports/inbound",
         Event.mkdirDir "internal/ports/outbound", Event.mkdirDir "adapters/inbound/http",
         Event.mkdirDir "adapters/outbound/persistence", Event.mkdirDir "initiators",
         Event.mkdirDir "cmd/server", Event.writeEntry "cmd/server/main.go",
         Event.mkdirDir "internal/domain", Event.writeEntry "internal/domain/user.go",
         Event.mkdirDir "internal/application",
         Event.writeEntry "internal/application/user_service.go",
         Event.mkdirDir "internal/ports/inbound",
         Event.writeEntry "internal/ports/inbound/user_service.go",
         Event.mkdirDir "internal/ports/outbound",
         Event.writeEntry "internal/ports/outbound/user_repository.go",
         Event.mkdirDir "adapters/inbound/http",
         Event.writeEntry "adapters/inbound/http/user_handler.go",
         Event.mkdirDir "adapters/inbound/http",
         Event.writeEntry "adapters/inbound/http/router.go",
         Event.mkdirDir "adapters/outbound/persistence",
         Event.writeEntry "adapters/outbound/persistence/user_repository.go",
         Event.mkdirDir "initiators", Event.writeEntry "initiators/app.go",
         Event.mkdirDir "initiators", Event.writeEntry "initiators/http.go",
         Event.mkdirDir "initiators", Event.writeEntry "initiators/persistence.go",
         Event.mkdirDir ".", Event.writeEntry "README.md",
         Event.modTidy] := by
  have h1 := oneStep_spec (Event.mkdirRoot projectName) (OSEnv.mkdirAll env projectName)
  have h2 := oneStep_spec (Event.chdir projectName) (OSEnv.chdir env projectName)
  have h3 := oneStep_spec (Event.modInit projectName) (runGoModInit env projectName)
  have hd := runSeq_spec (fun d => oneStep (Event.mkdirDir d) (OSEnv.mkdirAll env d))
    (fun d => [Event.mkdirDir d]) (fun d => oneStep_spec _ _) dirs
  have hw := runSeq_spec (fun e => writeFile env e.1 e.2)
    (fun e => [Event.mkdirDir (dirOf e.1), Event.writeEntry e.1])
    (fun e => writeFile_spec env e.1 e.2) (coreFiles projectName)
  have h6 := oneStep_spec Event.modTidy (runGoModTidy env)
  have hall : TraceSpec (createProject env projectName)
      ([Event.mkdirRoot projectName] ++ ([Event.chdir projectName]
      ++ ([Event.modInit projectName]
      ++ ((dirs.flatMap fun d => [Event.mkdirDir d])
      ++ (((coreFiles projectName).flatMap
            fun e => [Event.mkdirDir (dirOf e.1), Event.writeEntry e.1])
      ++ [Event.modTidy]))))) :=
    andThen_spec h1 (andThen_spec h2 (andThen_spec h3
      (andThen_spec hd (andThen_spec hw h6))))
  have heq : [Event.mkdirRoot projectName] ++ ([Event.chdir projectName]
      ++ ([Event.modInit projectName]
      ++ ((dirs.flatMap fun d => [Event.mkdirDir d])
      ++ (((coreFiles projectName).flatMap
            fun e => [Event.mkdirDir (dirOf e.1), Event.writeEntry e.1])
      ++ [Event.modTidy]))))
      = fullTrace projectName := by
    rw [flatMap_singletonEq]
    simp [fullTrace, List.append_assoc]
  have hfin := traceSpec_congr hall heq
  exact ⟨hfin.1, hfin.2, rfl⟩

/-- C9: the hexagonal template applied to the project name `demo` maps the
path `cmd/server/main.go` to the generated main file, whose content contains
the literal substring `demo` (the interpolated module import path). -/
theorem hexagonal_demo_main_contains_demo :
    (templates.HexagonalTemplate.GenerateFiles "demo").lookup "cmd/server/main.go"
      = some (templates.generateMainGo "demo")
    ∧ containsSub "demo" (templates.generateMainGo "demo") = true :=
  ⟨rfl, by decide⟩

/-- C10: the set of generated paths depends only on the template, never on
the project identifier: for every identifier the hexagonal template yields
the same 12 paths and the clean template the same 19 paths. -/
theorem generateFiles_path_set_independent_of_identifier (P : String) :
    (templates.HexagonalTemplate.GenerateFiles P).map Prod.fst
      = ["cmd/server/main.go", "internal/domain/user.go",
         "internal/application/user_service.go",
         "internal/ports/inbound/user_service.go",
         "internal/ports/outbound/user_repository.go",
         "adapters/inbound/http/user_handler.go",
         "adapters/inbound/http/router.go",
         "adapters/outbound/persistence/user_repository.go",
         "initiators/app.go", "initiators/http.go", "initiators/persistence.go",
         "README.md"]
    ∧ (templates.CleanTemplate.GenerateFiles P).map Prod.fst
      = ["cmd/server/main.go", "internal/domain/entity/user.go",
         "internal/domain/service/user_service.go",
         "internal/storage/interfaces/user_repository.go",
         "internal/storage/mongo/user_repository.go",
         "internal/handler/rest/dto/user_dto.go",
         "internal/handler/rest/http/user_handler.go",
         "internal/handler/rest/mapper/user_mapper.go",
         "internal/handler/middleware/auth.go",
         "internal/glue/routing/routes.go",
         "initiator/initiator.go", "initiator/service.go",
         "initiator/persistence.go", "initiator/handler.go",
         "initiator/config.go", "initiator/logger.go",
         "platform/utils/response.go", "platform/mongo/connection.go",
         "README.md"]
    ∧ (templates.HexagonalTemplate.GenerateFiles P).length = 12
    ∧ (templates.CleanTemplate.GenerateFiles P).length = 19 :=
  ⟨rfl, rfl, rfl, rfl⟩
